import Mathlib

/-!
Verification of the asset-provisioning core of the `nnue-interface` package
(`src/__init__.py`): the cache locator `get_nnue_dir`, the asset provisioner
`download_nnue_files`, and the module-level initialization that publishes the
resolved cache directory and imports the native extension.

The embedding is a shallow state-passing translation of the Python source:
  * filesystem paths are lists of components, file contents are byte lists;
  * the filesystem is a map from paths to optional contents plus a directory
    existence predicate;
  * the process environment is a map from variable names to optional strings;
  * external effects (the network, the SHA-256 function, the platform, the
    home directory, the module's install location, and the outcome of the
    native-extension import) are gathered in a `World` record of oracles;
  * diagnostics printed to stderr with the `Warning:` prefix are recorded in a
    `warnings` list, and every network retrieval is recorded in `netLog`
    (so "no network call is issued" is `netLog` unchanged);
  * Python exceptions are `Except`: the body of the `try:` block in
    `download_nnue_files` is `fetchAndVerify`, returning `Except` with the
    intermediate state carried on the error side, and the `except` handler is
    inlined in `provisionAsset`.
-/

namespace NNUEInterface

/-- A filesystem path, as a list of components (`Path(__file__).parent`,
`nnue_dir / filename`, ... are modelled by list append). -/
abbrev FsPath := List String

/-- File contents: a list of bytes. -/
abbrev Content := List Nat

/-- The filesystem: file contents by path, and a directory-existence flag by
path (tracked separately so `mkdir(parents=True, exist_ok=True)` and
`Path.exists` can both be modelled). -/
structure FS where
  files : FsPath → Option Content
  dirs : FsPath → Bool

/-- Write (`some c`) or unlink (`none`) the file at path `p`. -/
def FS.setFile (fs : FS) (p : FsPath) (v : Option Content) : FS :=
  { fs with files := fun q => if q = p then v else fs.files q }

/-- `p.mkdir(parents=True, exist_ok=True)`: mark `p` and all its ancestors as
existing directories; idempotent, never an error. -/
def FS.mkdirParents (fs : FS) (p : FsPath) : FS :=
  { fs with dirs := fun q => fs.dirs q || q.isPrefixOf p }

/-- Outcome of `urllib.request.urlretrieve(url, filepath)`: success with the
retrieved bytes, or an exception with a message; a failing retrieval may have
left a partially written file (`leftover`) at the target path. -/
inductive FetchResult where
  | ok (bytes : Content)
  | err (msg : String) (leftover : Option Content)

/-- The fixed external world of one process run: `sys.platform`,
`Path.home()`, `Path(__file__).parent`, the network (`urlretrieve` keyed by
URL), `hashlib.sha256(...).hexdigest()` as an abstract digest function, and
whether `from . import stockfish_nnue` raises `ImportError` (with message). -/
structure World where
  platform : String
  home : FsPath
  moduleDir : FsPath
  net : String → FetchResult
  sha256 : Content → String
  importErr : Option String

/-- One entry of the `NNUE_FILES` table: source URL and optional hex digest
(`None` means skip verification). -/
structure AssetInfo where
  url : String
  sha256 : Option String

/-- The `NNUE_FILES` mapping of the source, in declaration order. -/
def NNUE_FILES : List (String × AssetInfo) :=
  [ ("nn-1c0000000000.nnue",
      { url := "https://tests.stockfishchess.org/api/nn/nn-1c0000000000.nnue",
        sha256 := none }),
    ("nn-37f18f62d772.nnue",
      { url := "https://tests.stockfishchess.org/api/nn/nn-37f18f62d772.nnue",
        sha256 := none }) ]

/-- Mutable process state: the filesystem, `os.environ`, the warnings printed
to stderr, and the log of network retrievals issued. -/
structure St where
  fs : FS
  env : String → Option String
  warnings : List String
  netLog : List String

/-- `os.environ[k] = v`. -/
def setEnv (s : St) (k v : String) : St :=
  { s with env := fun q => if q = k then some v else s.env q }

/-- Lines 33-40 of the source: the platform-dependent user cache root with the
engine-scoped subdirectory not yet appended.
Windows: `LOCALAPPDATA` falling back to `home/AppData/Local`; macOS:
`home/Library/Caches`; otherwise `XDG_CACHE_HOME` falling back to
`home/.cache`. A set environment variable is an opaque path root. -/
def userCacheRoot (w : World) (env : String → Option String) : FsPath :=
  if w.platform = "win32" then
    match env "LOCALAPPDATA" with
    | some v => [v]
    | none => w.home ++ ["AppData", "Local"]
  else if w.platform = "darwin" then
    w.home ++ ["Library", "Caches"]
  else
    match env "XDG_CACHE_HOME" with
    | some v => [v]
    | none => w.home ++ [".cache"]

/-- `get_nnue_dir()` (lines 25-42): development-mode check first (the marker
file `nn-1c0000000000.nnue` next to the module), otherwise the user cache
directory `userCacheRoot / "stockfish_nnue"`, created with parents,
idempotently. Returns the directory and the (possibly updated) state. -/
def get_nnue_dir (w : World) (s : St) : FsPath × St :=
  let src_dir := w.moduleDir
  if (s.fs.files (src_dir ++ ["nn-1c0000000000.nnue"])).isSome then
    (src_dir, s)
  else
    let nnue_dir := userCacheRoot w s.env ++ ["stockfish_nnue"]
    (nnue_dir, { s with fs := s.fs.mkdirParents nnue_dir })

/-- The body of the `try:` block (lines 56-66): retrieve the URL into
`filepath`, then, if a digest is declared, read the file back, hash it, and on
mismatch unlink the file and raise `ValueError`. Errors carry the message of
the Python exception and the state at the point it was raised. -/
def fetchAndVerify (w : World) (filename : String) (info : AssetInfo)
    (filepath : FsPath) (s : St) : Except (String × St) St :=
  let s1 : St := { s with netLog := s.netLog ++ [info.url] }
  match w.net info.url with
  | .err msg leftover =>
      let s2 : St :=
        match leftover with
        | some b => { s1 with fs := s1.fs.setFile filepath (some b) }
        | none => s1
      .error (msg, s2)
  | .ok bytes =>
      let s2 : St := { s1 with fs := s1.fs.setFile filepath (some bytes) }
      match info.sha256 with
      | none => .ok s2
      | some digest =>
          let file_hash := w.sha256 ((s2.fs.files filepath).getD [])
          if file_hash = digest then .ok s2
          else
            let s3 : St := { s2 with fs := s2.fs.setFile filepath none }
            .error ("Hash mismatch for " ++ filename, s3)

/-- One iteration of the loop in `download_nnue_files` (lines 48-70): skip if
the target exists, otherwise run the `try:` body; the `except` handler prints
a warning and unlinks the target if it still exists. Total: no exception
escapes to the caller. -/
def provisionAsset (w : World) (nnue_dir : FsPath) (s : St) (filename : String)
    (info : AssetInfo) : St :=
  let filepath := nnue_dir ++ [filename]
  if (s.fs.files filepath).isSome then s
  else
    match fetchAndVerify w filename info filepath s with
    | .ok s2 => s2
    | .error (msg, s2) =>
        let s3 : St :=
          { s2 with warnings :=
              s2.warnings ++ ["Warning: Failed to download " ++ filename ++ ": " ++ msg] }
        if (s3.fs.files filepath).isSome then
          { s3 with fs := s3.fs.setFile filepath none }
        else s3

/-- The `for filename, info in NNUE_FILES.items():` loop over an arbitrary
asset table. -/
def processAssets (w : World) (nnue_dir : FsPath)
    (table : List (String × AssetInfo)) (s : St) : St :=
  table.foldl (fun acc fi => provisionAsset w nnue_dir acc fi.1 fi.2) s

/-- `download_nnue_files()` (lines 44-70): resolve the cache directory, then
provision every entry of `NNUE_FILES`. -/
def download_nnue_files (w : World) (s : St) : St :=
  let r := get_nnue_dir w s
  processAssets w r.1 NNUE_FILES r.2

/-- `str(path)` for comparing the published environment value. -/
def pathToString (p : FsPath) : String := String.intercalate "/" p

/-- Module-level initialization (lines 72-90): download the files, publish
`os.environ["NNUE_DIR"] = str(get_nnue_dir())`, then import the native
extension; on `ImportError` print a warning and re-raise (the error side
carries the message and the state at the raise). -/
def moduleInit (w : World) (s : St) : Except (String × St) St :=
  let s1 := download_nnue_files w s
  let r := get_nnue_dir w s1
  let s2 := setEnv r.2 "NNUE_DIR" (pathToString r.1)
  match w.importErr with
  | none => .ok s2
  | some e =>
      .error (e,
        { s2 with warnings :=
            s2.warnings ++
              ["Warning: Failed to import stockfish_nnue C++ extension: " ++ e] })

/-- The process state after module initialization, whether or not the
native-extension import raised. -/
def stateAfterInit (w : World) (s : St) : St :=
  match moduleInit w s with
  | .ok s2 => s2
  | .error (_, s2) => s2

/-! ### Concrete worlds and states used to evaluate the model -/

/-- An empty filesystem. -/
def emptyFS : FS := { files := fun _ => none, dirs := fun _ => false }

/-- An empty environment. -/
def emptyEnv : String → Option String := fun _ => none

/-- A fresh process state: nothing cached, nothing set, nothing logged. -/
def S0 : St := { fs := emptyFS, env := emptyEnv, warnings := [], netLog := [] }

/-- `s` with one more file on disk: contents `c` at path `p`. -/
def addFile (s : St) (p : FsPath) (c : Content) : St :=
  { s with fs := s.fs.setFile p (some c) }

/-- A Linux run in which the first declared asset downloads fine and the
second raises a network error; the native import succeeds (spec §8's
end-to-end scenario). -/
def W0 : World :=
  { platform := "linux"
    home := ["home", "u"]
    moduleDir := ["checkout", "src"]
    net := fun u =>
      if u = "https://tests.stockfishchess.org/api/nn/nn-1c0000000000.nnue" then
        .ok [1, 2, 3]
      else .err "Network unreachable" none
    sha256 := fun c => if c = [1, 2, 3] then "ff" else "00"
    importErr := none }

/-- A run in which every retrieval succeeds with bytes `[7]`. -/
def W1 : World :=
  { platform := "linux"
    home := ["home", "u"]
    moduleDir := ["checkout", "src"]
    net := fun _ => .ok [7]
    sha256 := fun c => if c = [7] then "ff" else "00"
    importErr := none }

/-- Like `W0` but the native-extension import raises. -/
def W8 : World := { W0 with importErr := some "no module named stockfish_nnue" }

/-- A run in which every retrieval fails, leaving a partially written file. -/
def W3 : World := { W0 with net := fun _ => .err "Connection reset" (some [5]) }

/-- A world whose network returns bytes `[1]` for everything and whose digest
function hashes `[1]` to `"00"` and everything else to `"ff"`. -/
def W4 : World :=
  { W1 with net := fun _ => .ok [1]
            sha256 := fun c => if c = [1] then "00" else "ff" }

/-- Like `W0` but with different network, digest oracle and import outcome —
used to check that the locator ignores these components. -/
def W9 : World :=
  { W0 with net := fun _ => .err "other" none
            sha256 := fun _ => "zz"
            importErr := some "x" }

/-- An asset declaring digest `"ff"`. -/
def A4 : AssetInfo := { url := "u4", sha256 := some "ff" }

/-- An asset declaring no digest. -/
def A1 : AssetInfo := { url := "u1", sha256 := none }

/-- A state whose cache already holds `a.nnue` with contents `[1]`. -/
def S4 : St :=
  { fs := { files := fun q => if q = ["cache", "a.nnue"] then some [1] else none
            dirs := fun _ => false }
    env := emptyEnv, warnings := [], netLog := [] }

/-- A state with the development marker present next to the module of `W0`
and both user-cache environment variables pointing elsewhere. -/
def S5 : St :=
  { fs := { files := fun q =>
              if q = ["checkout", "src", "nn-1c0000000000.nnue"] then some [0] else none
            dirs := fun _ => false }
    env := fun k =>
      if k = "XDG_CACHE_HOME" then some "elsewhere"
      else if k = "LOCALAPPDATA" then some "elsewhere2" else none
    warnings := [], netLog := [] }

/-- A state with the non-marker asset file present next to the module of `W0`
but the marker absent. -/
def S10 : St :=
  { fs := { files := fun q =>
              if q = ["checkout", "src", "nn-37f18f62d772.nnue"] then some [3] else none
            dirs := fun _ => false }
    env := emptyEnv, warnings := [], netLog := [] }

/-- Like `S0` but with a warning already recorded, an unrelated environment
variable set and an unrelated file present. -/
def S9 : St :=
  { fs := { files := fun q => if q = ["tmp", "x"] then some [4] else none
            dirs := fun _ => true }
    env := fun k => if k = "PATH" then some "/bin" else none
    warnings := ["earlier warning"], netLog := ["earlier"] }

/-! ### Basic lemmas about the filesystem model -/

theorem fsEq {a b : FS} (hf : a.files = b.files) (hd : a.dirs = b.dirs) :
    a = b := by
  cases a; cases b; cases hf; cases hd; rfl

theorem stEq {a b : St} (hfs : a.fs = b.fs) (he : a.env = b.env)
    (hw : a.warnings = b.warnings) (hn : a.netLog = b.netLog) : a = b := by
  cases a; cases b; cases hfs; cases he; cases hw; cases hn; rfl

@[simp]
theorem setFile_files_self (fs : FS) (p : FsPath) (v : Option Content) :
    (fs.setFile p v).files p = v := by
  simp [FS.setFile]

theorem setFile_files_ne (fs : FS) (p q : FsPath) (v : Option Content)
    (h : q ≠ p) : (fs.setFile p v).files q = fs.files q := by
  simp [FS.setFile, h]

theorem mkdirParents_files (fs : FS) (p : FsPath) :
    (fs.mkdirParents p).files = fs.files := rfl

theorem append_single_inj {a b : FsPath} {x y : String}
    (h : a ++ [x] = b ++ [y]) : a = b ∧ x = y := by
  have h2 := congrArg List.reverse h
  simp only [List.reverse_append, List.reverse_cons, List.reverse_nil,
    List.nil_append, List.singleton_append, List.cons.injEq] at h2
  exact ⟨List.reverse_injective h2.2, h2.1⟩

/-! ### Frame lemmas: what one provisioning step does not change -/

theorem fetchAndVerify_ok_frame (w : World) (filename : String)
    (info : AssetInfo) (filepath : FsPath) (s s2 : St)
    (h : fetchAndVerify w filename info filepath s = .ok s2) :
    s2.env = s.env ∧ s2.warnings = s.warnings ∧ s2.fs.dirs = s.fs.dirs ∧
      s2.netLog = s.netLog ++ [info.url] ∧
      ∀ q, q ≠ filepath → s2.fs.files q = s.fs.files q := by
  unfold fetchAndVerify at h
  dsimp only at h
  split at h
  · exact absurd h (by simp)
  · split at h
    · cases h
      refine ⟨rfl, rfl, rfl, rfl, fun q hq => ?_⟩
      exact setFile_files_ne _ _ _ _ hq
    · split at h
      · cases h
        refine ⟨rfl, rfl, rfl, rfl, fun q hq => ?_⟩
        exact setFile_files_ne _ _ _ _ hq
      · exact absurd h (by simp)

theorem fetchAndVerify_error_frame (w : World) (filename msg : String)
    (info : AssetInfo) (filepath : FsPath) (s s2 : St)
    (h : fetchAndVerify w filename info filepath s = .error (msg, s2)) :
    s2.env = s.env ∧ s2.warnings = s.warnings ∧ s2.fs.dirs = s.fs.dirs ∧
      s2.netLog = s.netLog ++ [info.url] ∧
      ∀ q, q ≠ filepath → s2.fs.files q = s.fs.files q := by
  unfold fetchAndVerify at h
  dsimp only at h
  split at h
  · split at h
    · cases h
      refine ⟨rfl, rfl, rfl, rfl, fun q hq => ?_⟩
      exact setFile_files_ne _ _ _ _ hq
    · cases h
      exact ⟨rfl, rfl, rfl, rfl, fun q hq => rfl⟩
  · split at h
    · exact absurd h (by simp)
    · split at h
      · exact absurd h (by simp)
      · cases h
        refine ⟨rfl, rfl, rfl, rfl, fun q hq => ?_⟩
        rw [setFile_files_ne _ _ _ _ hq, setFile_files_ne _ _ _ _ hq]

theorem provisionAsset_frame (w : World) (nnue_dir : FsPath) (s : St)
    (filename : String) (info : AssetInfo) :
    (provisionAsset w nnue_dir s filename info).env = s.env ∧
      (provisionAsset w nnue_dir s filename info).fs.dirs = s.fs.dirs ∧
      ∀ q, q ≠ nnue_dir ++ [filename] →
        (provisionAsset w nnue_dir s filename info).fs.files q = s.fs.files q := by
  unfold provisionAsset
  dsimp only
  split
  · exact ⟨rfl, rfl, fun q _ => rfl⟩
  · split
    · rename_i s2 h
      obtain ⟨he, _, hd, _, hf⟩ := fetchAndVerify_ok_frame w _ info _ s s2 h
      exact ⟨he, hd, fun q hq => hf q hq⟩
    · rename_i msg s2 h
      obtain ⟨he, _, hd, _, hf⟩ := fetchAndVerify_error_frame w _ msg info _ s s2 h
      split
      · exact ⟨he, hd, fun q hq => by
          rw [setFile_files_ne _ _ _ _ hq]; exact hf q hq⟩
      · exact ⟨he, hd, fun q hq => hf q hq⟩

theorem provisionAsset_skip (w : World) (nnue_dir : FsPath) (s : St)
    (filename : String) (info : AssetInfo)
    (h : (s.fs.files (nnue_dir ++ [filename])).isSome) :
    provisionAsset w nnue_dir s filename info = s := by
  unfold provisionAsset
  dsimp only
  rw [if_pos h]

theorem processAssets_cons (w : World) (nnue_dir : FsPath) (f : String)
    (i : AssetInfo) (rest : List (String × AssetInfo)) (s : St) :
    processAssets w nnue_dir ((f, i) :: rest) s =
      processAssets w nnue_dir rest (provisionAsset w nnue_dir s f i) := rfl

theorem processAssets_frame (w : World) (nnue_dir : FsPath)
    (table : List (String × AssetInfo)) (s : St) :
    (processAssets w nnue_dir table s).env = s.env ∧
      (processAssets w nnue_dir table s).fs.dirs = s.fs.dirs ∧
      ∀ q, (∀ fi ∈ table, q ≠ nnue_dir ++ [fi.1]) →
        (processAssets w nnue_dir table s).fs.files q = s.fs.files q := by
  induction table generalizing s with
  | nil => exact ⟨rfl, rfl, fun q _ => rfl⟩
  | cons fi rest ih =>
    obtain ⟨he1, hd1, hf1⟩ := provisionAsset_frame w nnue_dir s fi.1 fi.2
    obtain ⟨he2, hd2, hf2⟩ := ih (provisionAsset w nnue_dir s fi.1 fi.2)
    refine ⟨he2.trans he1, hd2.trans hd1, fun q hq => ?_⟩
    have h1 : q ≠ nnue_dir ++ [fi.1] := hq fi (List.mem_cons_self fi rest)
    have h2 : ∀ gi ∈ rest, q ≠ nnue_dir ++ [gi.1] :=
      fun gi hg => hq gi (List.mem_cons_of_mem fi hg)
    calc (processAssets w nnue_dir (fi :: rest) s).fs.files q
        = (provisionAsset w nnue_dir s fi.1 fi.2).fs.files q := hf2 q h2
      _ = s.fs.files q := hf1 q h1

theorem processAssets_skip_all (w : World) (nnue_dir : FsPath)
    (table : List (String × AssetInfo)) (s : St)
    (h : ∀ fi ∈ table, (s.fs.files (nnue_dir ++ [fi.1])).isSome) :
    processAssets w nnue_dir table s = s := by
  induction table with
  | nil => rfl
  | cons fi rest ih =>
    rw [show processAssets w nnue_dir (fi :: rest) s =
          processAssets w nnue_dir rest (provisionAsset w nnue_dir s fi.1 fi.2) from rfl,
      provisionAsset_skip w nnue_dir s fi.1 fi.2 (h fi (List.mem_cons_self fi rest))]
    exact ih (fun gi hg => h gi (List.mem_cons_of_mem fi hg))

/-! ### The cache locator -/

/-- The development-mode marker path, `Path(__file__).parent / "nn-1c0000000000.nnue"`. -/
def markerPath (w : World) : FsPath := w.moduleDir ++ ["nn-1c0000000000.nnue"]

theorem get_nnue_dir_dev (w : World) (s : St)
    (h : (s.fs.files (markerPath w)).isSome) :
    get_nnue_dir w s = (w.moduleDir, s) := by
  simp only [markerPath] at h
  unfold get_nnue_dir
  dsimp only
  rw [if_pos h]

theorem get_nnue_dir_user (w : World) (s : St)
    (h : ¬ (s.fs.files (markerPath w)).isSome = true) :
    get_nnue_dir w s =
      (userCacheRoot w s.env ++ ["stockfish_nnue"],
        { s with fs := s.fs.mkdirParents (userCacheRoot w s.env ++ ["stockfish_nnue"]) }) := by
  simp only [markerPath] at h
  unfold get_nnue_dir
  dsimp only
  rw [if_neg h]

theorem get_nnue_dir_snd_frame (w : World) (s : St) :
    ((get_nnue_dir w s).2).fs.files = s.fs.files ∧
      ((get_nnue_dir w s).2).env = s.env ∧
      ((get_nnue_dir w s).2).warnings = s.warnings ∧
      ((get_nnue_dir w s).2).netLog = s.netLog := by
  unfold get_nnue_dir
  dsimp only
  split
  · exact ⟨rfl, rfl, rfl, rfl⟩
  · exact ⟨rfl, rfl, rfl, rfl⟩

/-- The resolved cache directory is stable across a provisioning run: the
downloads write only into the resolved directory, so they cannot create or
remove the development marker next to the module unless the resolved
directory is the module directory itself, in which case both calls agree. -/
theorem get_nnue_dir_fst_stable (w : World) (s : St) :
    (get_nnue_dir w (download_nnue_files w s)).1 = (get_nnue_dir w s).1 := by
  by_cases h : (s.fs.files (markerPath w)).isSome = true
  · -- development mode: the marker file exists, so the first asset is skipped
    -- and the second is written at a different filename next to the module
    have hdl : download_nnue_files w s =
        processAssets w w.moduleDir NNUE_FILES s := by
      unfold download_nnue_files
      rw [get_nnue_dir_dev w s h]
    have hskip : provisionAsset w w.moduleDir s "nn-1c0000000000.nnue"
        { url := "https://tests.stockfishchess.org/api/nn/nn-1c0000000000.nnue",
          sha256 := none } = s :=
      provisionAsset_skip _ _ _ _ _ h
    have hm : (download_nnue_files w s).fs.files (markerPath w) =
        s.fs.files (markerPath w) := by
      rw [hdl, show processAssets w w.moduleDir NNUE_FILES s =
            processAssets w w.moduleDir
              [("nn-37f18f62d772.nnue",
                { url := "https://tests.stockfishchess.org/api/nn/nn-37f18f62d772.nnue",
                  sha256 := none })]
              (provisionAsset w w.moduleDir s "nn-1c0000000000.nnue"
                { url := "https://tests.stockfishchess.org/api/nn/nn-1c0000000000.nnue",
                  sha256 := none }) from rfl, hskip]
      refine (processAssets_frame w w.moduleDir _ s).2.2 _ (fun fi hfi => ?_)
      simp only [List.mem_singleton] at hfi
      subst hfi
      intro hc
      exact absurd (append_single_inj hc).2 (by decide)
    rw [get_nnue_dir_dev w (download_nnue_files w s) (by rw [hm]; exact h),
      get_nnue_dir_dev w s h]
  · -- user-cache mode
    have hu := get_nnue_dir_user w s h
    set d := userCacheRoot w s.env ++ ["stockfish_nnue"] with hd
    have hdl : download_nnue_files w s =
        processAssets w d NNUE_FILES { s with fs := s.fs.mkdirParents d } := by
      unfold download_nnue_files
      rw [hu]
    have henv : (download_nnue_files w s).env = s.env := by
      rw [hdl]
      exact (processAssets_frame w d NNUE_FILES _).1
    by_cases hmod : d = w.moduleDir
    · -- the cache directory is the module directory itself: whichever branch
      -- the second call takes, it returns the same path
      by_cases h2 : ((download_nnue_files w s).fs.files (markerPath w)).isSome = true
      · rw [get_nnue_dir_dev w _ h2, hu, hmod]
      · rw [get_nnue_dir_user w _ h2, hu, henv]
    · -- the downloads never touch the marker path
      have hm : (download_nnue_files w s).fs.files (markerPath w) =
          s.fs.files (markerPath w) := by
        rw [hdl]
        refine ((processAssets_frame w d NNUE_FILES _).2.2 _ (fun fi hfi hc => ?_)).trans
          (congrFun (mkdirParents_files s.fs d) (markerPath w))
        exact hmod ((append_single_inj hc).1.symm)
      rw [get_nnue_dir_user w _ (by rw [hm]; exact h), hu, henv]

/-! ### Claim C5: development-marker precedence -/

/-- C5: whenever the development-mode marker file exists next to the module's
own install location, `get_nnue_dir` returns that module directory (and leaves
the state untouched), regardless of the values of `LOCALAPPDATA` /
`XDG_CACHE_HOME` and of the platform — the state `s`, including its whole
environment, and the platform in `w` are universally quantified. -/
theorem cache_locator_dev_precedence (w : World) (s : St)
    (h : (s.fs.files (w.moduleDir ++ ["nn-1c0000000000.nnue"])).isSome) :
    get_nnue_dir w s = (w.moduleDir, s) :=
  get_nnue_dir_dev w s h

/-- Witness for C5: in state `S5` both user-cache environment variables point
elsewhere, yet the locator returns the module directory of `W0`. -/
theorem cache_locator_dev_precedence_witness :
    S5.env "XDG_CACHE_HOME" = some "elsewhere" ∧
      S5.env "LOCALAPPDATA" = some "elsewhere2" ∧
      get_nnue_dir W0 S5 = (["checkout", "src"], S5) :=
  ⟨rfl, rfl, cache_locator_dev_precedence W0 S5 (by decide)⟩

/-! ### Claim C6: per-platform fallback -/

/-- C6: with no development marker and neither cache environment variable
set, `get_nnue_dir` returns the documented platform default root
(`AppData/Local` on Windows, `Library/Caches` on macOS, `.cache` otherwise)
with `stockfish_nnue` appended; that directory exists on disk afterwards, and
creation is idempotent — a second call returns the same path and leaves the
state unchanged, with no error. -/
theorem cache_locator_fallback (w : World) (s : St)
    (hmark : s.fs.files (w.moduleDir ++ ["nn-1c0000000000.nnue"]) = none)
    (hla : s.env "LOCALAPPDATA" = none)
    (hx : s.env "XDG_CACHE_HOME" = none) :
    (get_nnue_dir w s).1 =
      (if w.platform = "win32" then w.home ++ ["AppData", "Local"]
        else if w.platform = "darwin" then w.home ++ ["Library", "Caches"]
        else w.home ++ [".cache"]) ++ ["stockfish_nnue"] ∧
      ((get_nnue_dir w s).2).fs.dirs ((get_nnue_dir w s).1) = true ∧
      get_nnue_dir w ((get_nnue_dir w s).2) =
        ((get_nnue_dir w s).1, (get_nnue_dir w s).2) := by
  have hns : ¬ (s.fs.files (markerPath w)).isSome = true := by
    simp [markerPath, hmark]
  have hroot : userCacheRoot w s.env =
      (if w.platform = "win32" then w.home ++ ["AppData", "Local"]
        else if w.platform = "darwin" then w.home ++ ["Library", "Caches"]
        else w.home ++ [".cache"]) := by
    unfold userCacheRoot
    rw [hla, hx]
  rw [get_nnue_dir_user w s hns]
  refine ⟨by rw [hroot], ?_, ?_⟩
  · simp [FS.mkdirParents, List.isPrefixOf_iff_prefix]
  · have hns2 : ¬ (({ s with
        fs := s.fs.mkdirParents (userCacheRoot w s.env ++ ["stockfish_nnue"]) :
          St }).fs.files (markerPath w)).isSome = true := by
      simpa [FS.mkdirParents] using hns
    rw [get_nnue_dir_user w _ hns2]
    refine Prod.ext rfl (stEq ?_ rfl rfl rfl)
    refine fsEq rfl ?_
    funext q
    simp [FS.mkdirParents, Bool.or_assoc]

/-- Witness for C6: a fresh Linux state resolves to
`home/u/.cache/stockfish_nnue`, the directory exists afterwards, and a second
call changes nothing. -/
theorem cache_locator_fallback_witness :
    (get_nnue_dir W0 S0).1 = ["home", "u", ".cache", "stockfish_nnue"] ∧
      ((get_nnue_dir W0 S0).2).fs.dirs ["home", "u", ".cache", "stockfish_nnue"] = true ∧
      get_nnue_dir W0 ((get_nnue_dir W0 S0).2) =
        ((get_nnue_dir W0 S0).1, (get_nnue_dir W0 S0).2) := by
  have h := cache_locator_fallback W0 S0 (by decide) rfl rfl
  have h1 : (get_nnue_dir W0 S0).1 = ["home", "u", ".cache", "stockfish_nnue"] := by
    rw [h.1]; rfl
  refine ⟨h1, ?_, h.2.2⟩
  have := h.2.1
  rwa [h1] at this

/-! ### Claim C9: the locator is a function of the relevant inputs only -/

/-- C9: two calls to `get_nnue_dir` under the same platform, home directory,
module location, marker-file state and user-cache environment variables
return the same path, whatever else (network, digest oracle, other files,
other environment variables, logs) differs between the two runs. -/
theorem cache_locator_deterministic (w1 w2 : World) (s1 s2 : St)
    (hp : w1.platform = w2.platform) (hh : w1.home = w2.home)
    (hm : w1.moduleDir = w2.moduleDir)
    (hmark : s1.fs.files (w1.moduleDir ++ ["nn-1c0000000000.nnue"]) =
      s2.fs.files (w2.moduleDir ++ ["nn-1c0000000000.nnue"]))
    (hla : s1.env "LOCALAPPDATA" = s2.env "LOCALAPPDATA")
    (hx : s1.env "XDG_CACHE_HOME" = s2.env "XDG_CACHE_HOME") :
    (get_nnue_dir w1 s1).1 = (get_nnue_dir w2 s2).1 := by
  by_cases h1 : (s1.fs.files (markerPath w1)).isSome = true
  · have h2 : (s2.fs.files (markerPath w2)).isSome = true := by
      simpa [markerPath, ← hmark] using h1
    rw [get_nnue_dir_dev w1 s1 h1, get_nnue_dir_dev w2 s2 h2]
    exact hm
  · have h2 : ¬ (s2.fs.files (markerPath w2)).isSome = true := by
      simpa [markerPath, ← hmark] using h1
    rw [get_nnue_dir_user w1 s1 h1, get_nnue_dir_user w2 s2 h2]
    have : userCacheRoot w1 s1.env = userCacheRoot w2 s2.env := by
      unfold userCacheRoot
      rw [hp, hh, hla, hx]
    rw [this]

/-- Witness for C9: `W0`/`S0` and `W9`/`S9` differ in network, digest oracle,
native-load outcome, recorded warnings, unrelated files and an unrelated
environment variable, yet resolve the same directory. -/
theorem cache_locator_deterministic_witness :
    W9.net "u" = .err "other" none ∧ S9.warnings = ["earlier warning"] ∧
      (get_nnue_dir W0 S0).1 = (get_nnue_dir W9 S9).1 :=
  ⟨rfl, rfl,
    cache_locator_deterministic W0 W9 S0 S9 rfl rfl rfl (by decide) rfl rfl⟩

/-! ### Claim C10: only the specific marker file triggers development mode -/

/-- C10: the development check looks for the single file
`nn-1c0000000000.nnue`; if that file is absent next to the module, the
locator falls through to the user-cache rules, and this remains so even after
placing the other declared asset `nn-37f18f62d772.nnue` next to the module. -/
theorem dev_marker_is_specific (w : World) (s : St)
    (h : s.fs.files (w.moduleDir ++ ["nn-1c0000000000.nnue"]) = none) :
    (get_nnue_dir w s).1 = userCacheRoot w s.env ++ ["stockfish_nnue"] ∧
      (get_nnue_dir w
          (addFile s (w.moduleDir ++ ["nn-37f18f62d772.nnue"]) [0])).1 =
        userCacheRoot w s.env ++ ["stockfish_nnue"] := by
  have hns : ¬ (s.fs.files (markerPath w)).isSome = true := by
    simp [markerPath, h]
  have hne : markerPath w ≠ w.moduleDir ++ ["nn-37f18f62d772.nnue"] := by
    intro hc
    exact absurd (append_single_inj hc).2 (by decide)
  have hns2 : ¬ ((addFile s (w.moduleDir ++ ["nn-37f18f62d772.nnue"])
      [0]).fs.files (markerPath w)).isSome = true := by
    show ¬ ((s.fs.setFile (w.moduleDir ++ ["nn-37f18f62d772.nnue"])
      (some [0])).files (markerPath w)).isSome = true
    rw [setFile_files_ne _ _ _ _ hne]
    exact hns
  constructor
  · rw [get_nnue_dir_user w s hns]
  · rw [get_nnue_dir_user w _ hns2]
    rfl

/-- Witness for C10: with `nn-37f18f62d772.nnue` present next to the module
(state `S10`) but the marker absent, the locator still resolves the user
cache, and adding the file again changes nothing. -/
theorem dev_marker_is_specific_witness :
    S10.fs.files ["checkout", "src", "nn-37f18f62d772.nnue"] = some [3] ∧
      (get_nnue_dir W0 S10).1 = ["home", "u", ".cache", "stockfish_nnue"] := by
  have h := dev_marker_is_specific W0 S10 (by decide)
  exact ⟨by decide, h.1.trans (by decide)⟩

/-! ### Claim C1: retrieval failures are degraded to warnings -/

/-- C1: the provisioner never raises to its caller — `provisionAsset` is a
total function into `St`, the `try:` body's exception being consumed by the
handler. For an asset whose retrieval fails (whether or not a partially
written file was left at the target), the target is absent afterwards,
exactly one warning naming the asset is recorded, and the loop continues with
the next declared asset. -/
theorem provisioner_recovers_retrieval_failure (w : World) (nnue_dir : FsPath)
    (s : St) (f msg : String) (i : AssetInfo) (leftover : Option Content)
    (rest : List (String × AssetInfo))
    (hnet : w.net i.url = .err msg leftover)
    (habsent : s.fs.files (nnue_dir ++ [f]) = none) :
    (provisionAsset w nnue_dir s f i).fs.files (nnue_dir ++ [f]) = none ∧
      (provisionAsset w nnue_dir s f i).warnings =
        s.warnings ++ ["Warning: Failed to download " ++ f ++ ": " ++ msg] ∧
      processAssets w nnue_dir ((f, i) :: rest) s =
        processAssets w nnue_dir rest (provisionAsset w nnue_dir s f i) := by
  have hns : ¬ (s.fs.files (nnue_dir ++ [f])).isSome = true := by simp [habsent]
  refine ⟨?_, ?_, rfl⟩ <;>
    · unfold provisionAsset fetchAndVerify
      dsimp only
      rw [if_neg hns, hnet]
      cases leftover with
      | none => simp [habsent]
      | some b => simp [FS.setFile]

/-- Witness for C1: under `W3` every retrieval fails leaving partial bytes
`[5]`; provisioning the first declared asset from a fresh state leaves the
slot absent and records one warning, and the batch moves on. -/
theorem provisioner_recovers_retrieval_failure_witness :
    W3.net "https://tests.stockfishchess.org/api/nn/nn-1c0000000000.nnue" =
        .err "Connection reset" (some [5]) ∧
      (provisionAsset W3 ["home", "u", ".cache", "stockfish_nnue"] S0
          "nn-1c0000000000.nnue"
          { url := "https://tests.stockfishchess.org/api/nn/nn-1c0000000000.nnue",
            sha256 := none }).fs.files
        ["home", "u", ".cache", "stockfish_nnue", "nn-1c0000000000.nnue"] = none ∧
      (provisionAsset W3 ["home", "u", ".cache", "stockfish_nnue"] S0
          "nn-1c0000000000.nnue"
          { url := "https://tests.stockfishchess.org/api/nn/nn-1c0000000000.nnue",
            sha256 := none }).warnings =
        ["Warning: Failed to download nn-1c0000000000.nnue: Connection reset"] := by
  have h := provisioner_recovers_retrieval_failure W3
    ["home", "u", ".cache", "stockfish_nnue"] S0 "nn-1c0000000000.nnue"
    "Connection reset"
    { url := "https://tests.stockfishchess.org/api/nn/nn-1c0000000000.nnue",
      sha256 := none }
    (some [5]) [] rfl (by decide)
  exact ⟨rfl, h.1, h.2.1⟩

/-! ### Claim C2: digest mismatches delete the file and do not abort -/

/-- C2: for an asset with a declared digest, if the digest of the retrieved
bytes does not match, the target file does not exist after the asset is
processed, one verification-failure warning naming that asset is recorded,
and the loop continues with the remaining assets. -/
theorem provisioner_digest_mismatch (w : World) (nnue_dir : FsPath) (s : St)
    (f d : String) (i : AssetInfo) (bytes : Content)
    (rest : List (String × AssetInfo))
    (hd : i.sha256 = some d)
    (hnet : w.net i.url = .ok bytes)
    (hmm : w.sha256 bytes ≠ d)
    (habsent : s.fs.files (nnue_dir ++ [f]) = none) :
    (provisionAsset w nnue_dir s f i).fs.files (nnue_dir ++ [f]) = none ∧
      (provisionAsset w nnue_dir s f i).warnings =
        s.warnings ++
          ["Warning: Failed to download " ++ f ++ ": " ++
            ("Hash mismatch for " ++ f)] ∧
      processAssets w nnue_dir ((f, i) :: rest) s =
        processAssets w nnue_dir rest (provisionAsset w nnue_dir s f i) := by
  have hns : ¬ (s.fs.files (nnue_dir ++ [f])).isSome = true := by simp [habsent]
  refine ⟨?_, ?_, rfl⟩ <;>
    · unfold provisionAsset fetchAndVerify
      dsimp only
      rw [if_neg hns, hnet, hd]
      simp [FS.setFile, hmm]

/-- Witness for C2: asset `a.nnue` declares digest `"ff"`, the network
returns `[1]`, which `W4` hashes to `"00"`; the file is gone afterwards and
the mismatch is reported. -/
theorem provisioner_digest_mismatch_witness :
    A4.sha256 = some "ff" ∧ W4.sha256 [1] = "00" ∧
      (provisionAsset W4 ["cache"] S0 "a.nnue" A4).fs.files
        ["cache", "a.nnue"] = none ∧
      (provisionAsset W4 ["cache"] S0 "a.nnue" A4).warnings =
        ["Warning: Failed to download a.nnue: " ++
          ("Hash mismatch for " ++ "a.nnue")] := by
  have h := provisioner_digest_mismatch W4 ["cache"] S0 "a.nnue" "ff" A4 [1] []
    rfl rfl (by decide) (by decide)
  exact ⟨rfl, by decide, h.1, h.2.1⟩

/-! ### Claim C3: provisioning is idempotent -/

/-- C3: an asset whose file already exists is skipped with no network call
and no state change at all (`provisionAsset` returns the state unchanged);
consequently a second provisioning run after a run that left every declared
file in place issues zero network calls (`netLog` does not grow). -/
theorem provisioning_idempotent :
    (∀ (w : World) (nnue_dir : FsPath) (s : St) (f : String) (i : AssetInfo),
        (s.fs.files (nnue_dir ++ [f])).isSome →
          provisionAsset w nnue_dir s f i = s) ∧
      ∀ (w : World) (s : St),
        (∀ fi ∈ NNUE_FILES,
            (((download_nnue_files w s).fs.files
              ((get_nnue_dir w s).1 ++ [fi.1])).isSome)) →
          (download_nnue_files w (download_nnue_files w s)).netLog =
            (download_nnue_files w s).netLog := by
  refine ⟨fun w nnue_dir s f i h => provisionAsset_skip w nnue_dir s f i h,
    fun w s hall => ?_⟩
  have key : ∀ s1 : St, (get_nnue_dir w s1).1 = (get_nnue_dir w s).1 →
      (∀ fi ∈ NNUE_FILES,
        ((s1.fs.files ((get_nnue_dir w s).1 ++ [fi.1])).isSome)) →
      (download_nnue_files w s1).netLog = s1.netLog := by
    intro s1 hdir hpres
    unfold download_nnue_files
    dsimp only
    rw [hdir]
    rw [processAssets_skip_all w _ NNUE_FILES _ (fun fi hfi => by
      rw [(get_nnue_dir_snd_frame w s1).1]
      exact hpres fi hfi)]
    exact (get_nnue_dir_snd_frame w s1).2.2.2
  exact key (download_nnue_files w s) (get_nnue_dir_fst_stable w s) hall

/-- Witness for C3: skipping a present file is a strict no-op, and under `W1`
(all downloads succeed) the second full run issues no network call. -/
theorem provisioning_idempotent_witness :
    provisionAsset W1 ["cache"] S4 "a.nnue" A1 = S4 ∧
      (download_nnue_files W1 (download_nnue_files W1 S0)).netLog =
        (download_nnue_files W1 S0).netLog := by
  refine ⟨provisioning_idempotent.1 W1 ["cache"] S4 "a.nnue" A1 ?_,
    provisioning_idempotent.2 W1 S0 ?_⟩
  · decide
  · decide

/-! ### Claim C4: the digest invariant of the cache

The claim as stated fails on the code: an existing file at the target path is
skipped without re-verification (line 51-52 of the source), so a pre-existing
cached file whose digest does not match the declared digest survives
provisioning. The invariant does hold for every file the provisioner itself
wrote. -/

/-- Counterexample to C4 as stated: `a.nnue` declares digest `"ff"`, the
cache already holds contents `[1]` whose digest is `"00"`; after provisioning
the file still exists and its digest still differs from the declared one. -/
theorem cache_digest_invariant_counterexample :
    A4.sha256 = some "ff" ∧
      (processAssets W4 ["cache"] [("a.nnue", A4)] S4).fs.files
        ["cache", "a.nnue"] = some [1] ∧
      W4.sha256 [1] ≠ "ff" := by
  refine ⟨rfl, ?_, by decide⟩
  decide

/-- C4 amended: for every asset with a declared digest whose target file was
absent when the asset was processed, if the target file exists after the
asset is processed then its digest matches the declared digest — a mismatch
detected on download never leaves the mismatched file in the cache. (Files
already present before provisioning are trusted without re-verification and
are exempt.) -/
theorem cache_digest_invariant_fresh (w : World) (nnue_dir : FsPath) (s : St)
    (f d : String) (i : AssetInfo) (c : Content)
    (hd : i.sha256 = some d)
    (habsent : s.fs.files (nnue_dir ++ [f]) = none)
    (hres : (provisionAsset w nnue_dir s f i).fs.files (nnue_dir ++ [f]) =
      some c) :
    w.sha256 c = d := by
  have hns : ¬ (s.fs.files (nnue_dir ++ [f])).isSome = true := by simp [habsent]
  cases hnet : w.net i.url with
  | ok bytes =>
    by_cases hh : w.sha256 bytes = d
    · -- matching digest: the file holds exactly the retrieved bytes
      have hfinal : (provisionAsset w nnue_dir s f i).fs.files
          (nnue_dir ++ [f]) = some bytes := by
        unfold provisionAsset fetchAndVerify
        dsimp only
        rw [if_neg hns, hnet, hd]
        simp [FS.setFile, hh]
      rw [hfinal] at hres
      obtain rfl : bytes = c := by injection hres
      exact hh
    · -- mismatch: the file was deleted, contradicting `hres`
      have hfinal : (provisionAsset w nnue_dir s f i).fs.files
          (nnue_dir ++ [f]) = none := by
        unfold provisionAsset fetchAndVerify
        dsimp only
        rw [if_neg hns, hnet, hd]
        simp [FS.setFile, hh]
      rw [hfinal] at hres
      exact absurd hres (by simp)
  | err msg leftover =>
    -- retrieval error: the slot ends up absent, contradicting `hres`
    have hfinal : (provisionAsset w nnue_dir s f i).fs.files
        (nnue_dir ++ [f]) = none := by
      unfold provisionAsset fetchAndVerify
      dsimp only
      rw [if_neg hns, hnet]
      cases leftover with
      | none => simp [habsent]
      | some b => simp [FS.setFile]
    rw [hfinal] at hres
    exact absurd hres (by simp)

/-- Witness for the amended C4: under `W1` the bytes `[7]` hash to the
declared digest `"ff"`, the freshly written file survives, and the theorem
yields the digest equation. -/
theorem cache_digest_invariant_fresh_witness :
    (provisionAsset W1 ["cache"] S0 "b.nnue"
        { url := "u", sha256 := some "ff" }).fs.files
      ["cache", "b.nnue"] = some [7] ∧
      W1.sha256 [7] = "ff" :=
  ⟨by decide,
    cache_digest_invariant_fresh W1 ["cache"] S0 "b.nnue" "ff"
      { url := "u", sha256 := some "ff" } [7] rfl (by decide) (by decide)⟩

/-! ### Claim C7: the cache directory is published after provisioning -/

/-- C7: after all declared assets are processed — however many succeeded —
the `NNUE_DIR` environment key holds exactly the resolved cache directory
path (as resolved by the locator, which is stable across the run); and in the
concrete two-asset scenario `W0` (first retrieval succeeds, second raises a
network error) exactly one target file exists, one warning was recorded, and
the published key equals the cache directory path. -/
theorem publishes_cache_dir :
    (∀ (w : World) (s : St),
        (stateAfterInit w s).env "NNUE_DIR" =
          some (pathToString (get_nnue_dir w s).1)) ∧
      (stateAfterInit W0 S0).fs.files
          ["home", "u", ".cache", "stockfish_nnue", "nn-1c0000000000.nnue"] =
        some [1, 2, 3] ∧
      (stateAfterInit W0 S0).fs.files
          ["home", "u", ".cache", "stockfish_nnue", "nn-37f18f62d772.nnue"] =
        none ∧
      (stateAfterInit W0 S0).warnings.length = 1 ∧
      (stateAfterInit W0 S0).env "NNUE_DIR" =
        some (pathToString ["home", "u", ".cache", "stockfish_nnue"]) := by
  have key : ∀ (w : World) (s : St),
      (stateAfterInit w s).env "NNUE_DIR" =
        some (pathToString (get_nnue_dir w (download_nnue_files w s)).1) := by
    intro w s
    unfold stateAfterInit moduleInit
    cases himp : w.importErr <;> simp [setEnv]
  refine ⟨fun w s => (key w s).trans ?_, by decide, by decide, by decide,
    by decide⟩
  rw [get_nnue_dir_fst_stable w s]

/-! ### Claim C8: only the native-import failure propagates -/

/-- C8: `moduleInit` returns normally whenever the native-extension import
succeeds — asset-provisioning failures never escape, whatever the network
did — and when the import raises, a warning is recorded and the very same
error propagates to the caller. -/
theorem native_import_propagates (w : World) (s : St) :
    (w.importErr = none → moduleInit w s = .ok (stateAfterInit w s)) ∧
      ∀ e, w.importErr = some e →
        moduleInit w s = .error (e, stateAfterInit w s) ∧
          (stateAfterInit w s).warnings =
            (download_nnue_files w s).warnings ++
              ["Warning: Failed to import stockfish_nnue C++ extension: " ++ e] := by
  have hw : (setEnv (get_nnue_dir w (download_nnue_files w s)).2 "NNUE_DIR"
      (pathToString (get_nnue_dir w (download_nnue_files w s)).1)).warnings =
      (download_nnue_files w s).warnings :=
    (get_nnue_dir_snd_frame w (download_nnue_files w s)).2.2.1
  constructor
  · intro h
    unfold stateAfterInit moduleInit
    rw [h]
  · intro e h
    constructor
    · unfold stateAfterInit moduleInit
      rw [h]
    · unfold stateAfterInit moduleInit
      rw [h]
      dsimp only
      rw [hw]

/-- Witness for C8: under `W0` (import succeeds) initialization returns
normally even though one download failed; under `W8` the import error
propagates with the corresponding warning recorded. -/
theorem native_import_propagates_witness :
    moduleInit W0 S0 = .ok (stateAfterInit W0 S0) ∧
      moduleInit W8 S0 =
        .error ("no module named stockfish_nnue", stateAfterInit W8 S0) ∧
      (stateAfterInit W8 S0).warnings =
        (download_nnue_files W8 S0).warnings ++
          ["Warning: Failed to import stockfish_nnue C++ extension: " ++
            "no module named stockfish_nnue"] :=
  ⟨(native_import_propagates W0 S0).1 rfl,
    ((native_import_propagates W8 S0).2 "no module named stockfish_nnue" rfl).1,
    ((native_import_propagates W8 S0).2 "no module named stockfish_nnue" rfl).2⟩

end NNUEInterface
